import Mathlib

/-!
Verification of the InsightSentinel agent orchestration core.

The definitions below are a shallow embedding of the repository sources:
the agent design document embedded in src/insightsentinel/App.tsx (AgentPhase,
ThoughtStep, AgentState, AgentOrchestrator.run, the LLM routing fragments and
RetryManager), the crawler design document (BaseCrawler._request_with_retry),
and the frontend service src/insightsentinel/services/agentService.ts
(executeWithStream event dispatch, abort, healthCheck).

Where a component is described only by its declarations in the repository,
the corresponding definition carries a doc comment starting with the words
Modelled from the spec, and is written from the specification text.
-/

set_option maxHeartbeats 1000000

/-- Agent phase enumeration, from the AgentPhase enum in the design document
embedded in src/insightsentinel/App.tsx. -/
inductive AgentPhase
  | idle
  | planning
  | executing
  | searching
  | scraping
  | expanding
  | critiquing
  | synthesizing
  | recovering
  | completed
  | failed
deriving DecidableEq, Repr

/-- One observable unit of the reasoning trace, from the ThoughtStep model in
the design document (step_id, phase, timestamp, thought, action, observation,
tokens_used, duration_ms). The timestamp is modelled as a natural number of
milliseconds. -/
structure ThoughtStep where
  step_id : String
  phase : AgentPhase
  timestamp : Nat
  thought : String
  action : Option String
  observation : Option String
  tokens_used : Nat
  duration_ms : Nat
deriving DecidableEq, Repr

/-- The agent run state, from the AgentState model in the design document.
Credibility scores are rational numbers in place of floats; collected data
records are kept as opaque string keys. -/
structure AgentState where
  task_id : String
  original_command : String
  current_phase : AgentPhase
  thought_chain : List ThoughtStep
  discovered_keywords : List String
  pending_searches : List String
  collected_data : List String
  credibility_scores : List (String × Rat)
  total_tokens : Nat
  error_count : Nat
  max_steps : Nat
  current_step : Nat
deriving DecidableEq, Repr

/-- The executing and expanding loop of AgentOrchestrator.run from the design
document in src/insightsentinel/App.tsx:

while current_step is below max_steps, increment current_step, run one
execute step, then if the pending-search queue is non-empty pop its first
keyword and run one expand search for it, otherwise break.

The fuel argument is the number of remaining loop entries permitted, namely
max_steps minus current_step at loop entry; only the run loop itself mutates
the step counter, exactly as in the source. The result carries the final
state, the number of loop-body iterations performed, and the list of keywords
that were dequeued and expanded, in order. The execute and expand step effects
are parameters, so the theorems below hold for every behaviour of the step
executor. -/
def AgentOrchestrator.runLoop (execute : AgentState → AgentState)
    (expand : AgentState → String → AgentState) :
    AgentState → Nat → AgentState × Nat × List String
  | st, 0 => (st, 0, [])
  | st, f + 1 =>
    let st1 := execute { st with current_step := st.current_step + 1 }
    match st1.pending_searches with
    | [] => (st1, 1, [])
    | kw :: rest =>
      let st2 := expand { st1 with pending_searches := rest } kw
      let r := AgentOrchestrator.runLoop execute expand st2 f
      (r.1, r.2.1 + 1, kw :: r.2.2)

/-- Initial state built by AgentOrchestrator.run on command receipt: the task
starts in the planning phase with empty chains and counters at zero. The step
budget is taken from the request options (the execute endpoint accepts a
max_steps option; the model default is 10). -/
def AgentOrchestrator.initState (command : String) (max_steps : Nat) : AgentState :=
  { task_id := "task_001"
    original_command := command
    current_phase := AgentPhase.planning
    thought_chain := []
    discovered_keywords := []
    pending_searches := []
    collected_data := []
    credibility_scores := []
    total_tokens := 0
    error_count := 0
    max_steps := max_steps
    current_step := 0 }

/-- AgentOrchestrator.run from the design document: plan, then the bounded
execute and expand loop, then the critique step, then the synthesize step.
The phase markers follow the state-transition diagram of the document: after
the loop the task falls through to critiquing, then synthesizing, then
completed. The step effects are parameters. The result carries the final
state, the number of loop iterations performed, and the expanded keywords. -/
def AgentOrchestrator.run (plan : AgentState → AgentState)
    (execute : AgentState → AgentState) (expand : AgentState → String → AgentState)
    (critique : AgentState → AgentState) (synthesize : AgentState → AgentState)
    (command : String) (max_steps : Nat) : AgentState × Nat × List String :=
  let st1 := plan (AgentOrchestrator.initState command max_steps)
  let r := AgentOrchestrator.runLoop execute expand st1 (st1.max_steps - st1.current_step)
  let st3 := critique { r.1 with current_phase := AgentPhase.critiquing }
  let st4 := synthesize { st3 with current_phase := AgentPhase.synthesizing }
  ({ st4 with current_phase := AgentPhase.completed }, r.2.1, r.2.2)

lemma AgentOrchestrator.runLoop_iterations_le (execute : AgentState → AgentState)
    (expand : AgentState → String → AgentState) :
    ∀ (f : Nat) (st : AgentState),
      (AgentOrchestrator.runLoop execute expand st f).2.1 ≤ f := by
  intro f
  induction f with
  | zero => intro st; simp [AgentOrchestrator.runLoop]
  | succ n ih =>
    intro st
    simp only [AgentOrchestrator.runLoop]
    split
    · exact Nat.succ_le_succ (Nat.zero_le n)
    · exact Nat.succ_le_succ (ih _)

lemma AgentOrchestrator.runLoop_expanded_le_iterations (execute : AgentState → AgentState)
    (expand : AgentState → String → AgentState) :
    ∀ (f : Nat) (st : AgentState),
      (AgentOrchestrator.runLoop execute expand st f).2.2.length ≤
        (AgentOrchestrator.runLoop execute expand st f).2.1 := by
  intro f
  induction f with
  | zero => intro st; simp [AgentOrchestrator.runLoop]
  | succ n ih =>
    intro st
    simp only [AgentOrchestrator.runLoop]
    split
    · simp
    · simpa using Nat.succ_le_succ (ih _)

/-- Keywords used by the scenario instances below: a queue of six discovered
keywords of which only the step budget can be consumed. -/
def scenarioKeywords : List String :=
  ["kw1", "kw2", "kw3", "kw4", "kw5", "kw6"]

/-- C1. The orchestrator loop body that advances the executing, searching,
scraping and expanding phases runs at most max_steps times per task, for every
behaviour of the execute and expand step effects, hence regardless of how many
keywords are discovered or remain queued. At run level the number of loop
iterations is bounded by the step budget of the planned state. Moreover, in
the scenario with a budget of two steps and six queued keywords, the run
performs exactly two loop iterations and then falls through to critiquing
leaving four keywords queued and unprocessed. -/
theorem claim1_step_budget_bounds_loop :
    (∀ (execute : AgentState → AgentState) (expand : AgentState → String → AgentState)
        (f : Nat) (st : AgentState),
      (AgentOrchestrator.runLoop execute expand st f).2.1 ≤ f) ∧
    (∀ (plan execute : AgentState → AgentState) (expand : AgentState → String → AgentState)
        (critique synthesize : AgentState → AgentState) (command : String) (m : Nat),
      (AgentOrchestrator.run plan execute expand critique synthesize command m).2.1 ≤
        (plan (AgentOrchestrator.initState command m)).max_steps) ∧
    ((AgentOrchestrator.run
        (fun st => { st with pending_searches := scenarioKeywords })
        (fun st => st) (fun st _ => st) (fun st => st) (fun st => st)
        "Monitor X" 2).2.1 = 2 ∧
     (AgentOrchestrator.run
        (fun st => { st with pending_searches := scenarioKeywords })
        (fun st => st) (fun st _ => st) (fun st => st) (fun st => st)
        "Monitor X" 2).1.pending_searches.length = 4) := by
  refine ⟨AgentOrchestrator.runLoop_iterations_le, ?_, by decide, by decide⟩
  intro plan execute expand critique synthesize command m
  have h := AgentOrchestrator.runLoop_iterations_le execute expand
    ((plan (AgentOrchestrator.initState command m)).max_steps -
      (plan (AgentOrchestrator.initState command m)).current_step)
    (plan (AgentOrchestrator.initState command m))
  simp only [AgentOrchestrator.run]
  omega

lemma AgentOrchestrator.runLoop_zero_fuel (execute : AgentState → AgentState)
    (expand : AgentState → String → AgentState) (st : AgentState) :
    AgentOrchestrator.runLoop execute expand st 0 = (st, 0, []) := rfl

/-- With step effects that do not themselves touch the pending-search queue,
the loop dequeues exactly the first min f n queued keywords in order, where f
is the remaining step budget and n the queue length, leaves exactly the rest
of the queue, and performs exactly min f (n + 1) iterations. This makes the
one-entry-per-iteration consumption of the queue exact. -/
lemma AgentOrchestrator.runLoop_inert (f : Nat) :
    ∀ st : AgentState,
      (AgentOrchestrator.runLoop (fun s => s) (fun s _ => s) st f).2.2 =
        st.pending_searches.take (min f st.pending_searches.length) ∧
      (AgentOrchestrator.runLoop (fun s => s) (fun s _ => s) st f).1.pending_searches =
        st.pending_searches.drop (min f st.pending_searches.length) ∧
      (AgentOrchestrator.runLoop (fun s => s) (fun s _ => s) st f).2.1 =
        min f (st.pending_searches.length + 1) := by
  induction f with
  | zero =>
    intro st
    simp [AgentOrchestrator.runLoop]
  | succ n ih =>
    intro st
    simp only [AgentOrchestrator.runLoop]
    cases h : st.pending_searches with
    | nil =>
      simp [h]
    | cons kw rest =>
      simp only [h]
      have hrec := ih { st with current_step := st.current_step + 1, pending_searches := rest }
      simp only at hrec
      refine ⟨?_, ?_, ?_⟩
      · simp only [hrec.1, List.length_cons, Nat.succ_min_succ, List.take_succ_cons]
      · simp only [hrec.2.1, List.length_cons, Nat.succ_min_succ, List.drop_succ_cons]
      · simp only [hrec.2.2, List.length_cons, Nat.succ_min_succ]

/-- C7. In every iteration of the orchestrator loop, at most one keyword is
dequeued and expanded: the number of expanded keywords never exceeds the
number of loop iterations for any step effects; a zero remaining budget stops
the loop immediately with the queue untouched; and with step effects that do
not themselves modify the queue, each iteration that expands consumes exactly
one queue entry, in order: exactly the first min f n queued keywords are
dequeued, the remaining drop of the queue falls through to critiquing, and the
loop runs exactly min f (n + 1) iterations, ending when the queue is empty or
the budget is exhausted. -/
theorem claim7_expanding_dequeues_at_most_one :
    (∀ (execute : AgentState → AgentState) (expand : AgentState → String → AgentState)
        (f : Nat) (st : AgentState),
      (AgentOrchestrator.runLoop execute expand st f).2.2.length ≤
        (AgentOrchestrator.runLoop execute expand st f).2.1) ∧
    (∀ (execute : AgentState → AgentState) (expand : AgentState → String → AgentState)
        (st : AgentState),
      AgentOrchestrator.runLoop execute expand st 0 = (st, 0, [])) ∧
    (∀ (f : Nat) (st : AgentState),
      (AgentOrchestrator.runLoop (fun s => s) (fun s _ => s) st f).2.2 =
        st.pending_searches.take (min f st.pending_searches.length) ∧
      (AgentOrchestrator.runLoop (fun s => s) (fun s _ => s) st f).1.pending_searches =
        st.pending_searches.drop (min f st.pending_searches.length) ∧
      (AgentOrchestrator.runLoop (fun s => s) (fun s _ => s) st f).2.1 =
        min f (st.pending_searches.length + 1)) :=
  ⟨AgentOrchestrator.runLoop_expanded_le_iterations,
   AgentOrchestrator.runLoop_zero_fuel,
   AgentOrchestrator.runLoop_inert⟩

/-- Splits a character list into its maximal whitespace-free words; the second
argument accumulates the current word in reverse. -/
def keywordWords : List Char → List Char → List (List Char)
  | [], [] => []
  | [], cur => [cur.reverse]
  | c :: cs, cur =>
    if c.isWhitespace then
      match cur with
      | [] => keywordWords cs []
      | _ :: _ => cur.reverse :: keywordWords cs []
    else keywordWords cs (c :: cur)

/-- Keyword normalization for duplicate detection: case-insensitive and
whitespace-normalized comparison, per the edge-case policy of the design
(duplicate keywords, case-insensitive, whitespace-normalized, are never
re-queued). Lower-cases the keyword, splits it on whitespace and rejoins the
non-empty words with single spaces. -/
def normalizeKeyword (s : String) : String :=
  String.intercalate " " ((keywordWords (s.data.map Char.toLower) []).map String.mk)

/-- The normalized forms of every keyword already seen (discovered) or already
queued (pending) in the state. -/
def AgentState.seenNormalized (st : AgentState) : List String :=
  st.discovered_keywords.map normalizeKeyword ++ st.pending_searches.map normalizeKeyword

/-- Modelled from the spec: the enqueue operation on the discovered-keyword
queue is only declared in the source (the AgentState model in
src/insightsentinel/App.tsx declares discovered_keywords and the
pending_searches queue); its behaviour is taken from the specification:
candidate follow-up keywords are enqueued only when not already seen and not
already queued, compared case-insensitively and whitespace-normalized, giving
the queue set semantics. -/
def enqueueKeyword (st : AgentState) (kw : String) : AgentState :=
  if normalizeKeyword kw ∈ st.seenNormalized then st
  else { st with
    discovered_keywords := st.discovered_keywords ++ [kw]
    pending_searches := st.pending_searches ++ [kw] }

lemma enqueueKeyword_mem (st : AgentState) (kw : String)
    (h : normalizeKeyword kw ∈ st.seenNormalized) : enqueueKeyword st kw = st := by
  simp [enqueueKeyword, h]

lemma seenNormalized_enqueue (st : AgentState) (kw : String) :
    normalizeKeyword kw ∈ (enqueueKeyword st kw).seenNormalized := by
  by_cases h : normalizeKeyword kw ∈ st.seenNormalized
  · rw [enqueueKeyword_mem st kw h]
    exact h
  · rw [enqueueKeyword, if_neg h]
    simp [AgentState.seenNormalized]

/-- C5. Re-discovering a keyword that is already seen or already queued never
enqueues a duplicate entry: enqueueing a keyword a second time, even under a
different capitalization or spacing with the same normalized form, leaves the
state exactly as enqueueing it once did (set semantics of the keyword queue).
In addition, a keyword whose normalized form is already seen or queued is
never re-enqueued at all. -/
theorem claim5_keyword_queue_idempotent :
    (∀ (st : AgentState) (kw kw2 : String),
      normalizeKeyword kw2 = normalizeKeyword kw →
      enqueueKeyword (enqueueKeyword st kw) kw2 = enqueueKeyword st kw) ∧
    (∀ (st : AgentState) (kw : String),
      normalizeKeyword kw ∈ st.seenNormalized → enqueueKeyword st kw = st) := by
  constructor
  · intro st kw kw2 hn
    apply enqueueKeyword_mem
    rw [hn]
    exact seenNormalized_enqueue st kw
  · exact enqueueKeyword_mem

/-- Witness for claim C5 at concrete inputs: the keyword DeepSeek R1 enqueued
on the initial state, then re-discovered with different case and spacing, is
not enqueued again. -/
theorem claim5_witness :
    normalizeKeyword " deepseek  r1" = normalizeKeyword "DeepSeek R1" ∧
    enqueueKeyword (enqueueKeyword (AgentOrchestrator.initState "Monitor X" 10) "DeepSeek R1")
        " deepseek  r1" =
      enqueueKeyword (AgentOrchestrator.initState "Monitor X" 10) "DeepSeek R1" :=
  ⟨by decide, claim5_keyword_queue_idempotent.1 _ _ _ (by decide)⟩

/-- Error classification taxonomy from the error-healing table of the design
document in src/insightsentinel/App.tsx (API_RATE_LIMIT, API_TIMEOUT,
CRAWLER_BLOCKED, CRAWLER_CAPTCHA, NETWORK_ERROR), extended with the
unclassified case for failures whose kind is outside the taxonomy. -/
inductive ErrorType
  | API_RATE_LIMIT
  | API_TIMEOUT
  | CRAWLER_BLOCKED
  | CRAWLER_CAPTCHA
  | NETWORK_ERROR
  | UNCLASSIFIED
deriving DecidableEq, Repr

/-- Recovery strategies named by the RetryManager in the design document. -/
inductive RecoveryStrategy
  | ExponentialBackoffStrategy
  | SwitchProxyStrategy
  | FallbackCrawlerStrategy
deriving DecidableEq, Repr

/-- The STRATEGIES table of RetryManager from the design document in
src/insightsentinel/App.tsx: only API_RATE_LIMIT and CRAWLER_BLOCKED have
entries; every other kind is absent from the table. -/
def RetryManager.STRATEGIES (e : ErrorType) : Option (List RecoveryStrategy) :=
  match e with
  | ErrorType.API_RATE_LIMIT => some [RecoveryStrategy.ExponentialBackoffStrategy]
  | ErrorType.CRAWLER_BLOCKED =>
      some [RecoveryStrategy.SwitchProxyStrategy, RecoveryStrategy.FallbackCrawlerStrategy]
  | _ => none

/-- RetryManager.get_strategy from the design document: look the classified
kind up in the STRATEGIES table, defaulting to a single exponential-backoff
strategy when the kind has no entry, and return the first strategy of the
list. -/
def RetryManager.get_strategy (e : ErrorType) : RecoveryStrategy :=
  ((RetryManager.STRATEGIES e).getD
    [RecoveryStrategy.ExponentialBackoffStrategy]).headD
    RecoveryStrategy.ExponentialBackoffStrategy

/-- Counterexample to claim C3: an unclassified failure is given the
exponential-backoff strategy, which is the rate-limited default, and not the
switch-resource strategy of the capability-blocked policy, which is what a
capability-blocked (CRAWLER_BLOCKED) failure receives. -/
theorem claim3_counterexample :
    RetryManager.get_strategy ErrorType.UNCLASSIFIED =
      RecoveryStrategy.ExponentialBackoffStrategy ∧
    RetryManager.get_strategy ErrorType.CRAWLER_BLOCKED =
      RecoveryStrategy.SwitchProxyStrategy ∧
    RecoveryStrategy.ExponentialBackoffStrategy ≠ RecoveryStrategy.SwitchProxyStrategy := by
  decide

/-- C3 as amended: for every failure whose kind has no entry in the recovery
table, among them the unclassified kind, the Recovery Policy applies the
exponential-backoff retry strategy, the rate-limited default, rather than the
capability-blocked switch-resource policy. -/
theorem claim3_unclassified_defaults_to_backoff (e : ErrorType)
    (h : RetryManager.STRATEGIES e = none) :
    RetryManager.get_strategy e = RecoveryStrategy.ExponentialBackoffStrategy := by
  simp [RetryManager.get_strategy, h]

/-- Witness for the amended claim C3 at the unclassified kind. -/
theorem claim3_witness :
    RetryManager.get_strategy ErrorType.UNCLASSIFIED =
      RecoveryStrategy.ExponentialBackoffStrategy :=
  claim3_unclassified_defaults_to_backoff ErrorType.UNCLASSIFIED rfl

/-- The two model tiers of the router. -/
inductive ModelTier
  | light
  | heavy
deriving DecidableEq, Repr

/-- The light task list of the LLM routing rules in the design document in
src/insightsentinel/App.tsx. -/
def light_tasks : List String :=
  ["filter", "classify", "extract_keywords", "simple_qa"]

/-- The heavy task list of the LLM routing rules in the design document. -/
def heavy_tasks : List String :=
  ["critical_review", "deep_analysis", "synthesis"]

/-- Task-name routing from the two task lists of the design document: a task
in the heavy list routes heavy, otherwise light. -/
def task_tier (t : String) : ModelTier :=
  if t ∈ heavy_tasks then ModelTier.heavy else ModelTier.light

/-- The phases the router claims speak about. -/
inductive RouterPhase
  | plan
  | search
  | critique
  | synthesize
deriving DecidableEq, Repr

/-- Modelled from the spec: the mapping from router phases to the task labels
of the source lists is not spelled out in the source; per the specification,
plan and search use light-tier work (decomposition, classification, keyword
extraction) and critique and synthesize use heavy-tier work (credibility
critique, final synthesis). -/
def phase_task : RouterPhase → String
  | RouterPhase.plan => "extract_keywords"
  | RouterPhase.search => "classify"
  | RouterPhase.critique => "critical_review"
  | RouterPhase.synthesize => "synthesis"

/-- The default tier of a phase: the task-list tier of its task label. -/
def defaultTier (p : RouterPhase) : ModelTier :=
  task_tier (phase_task p)

/-- The input length threshold of the router, fixed at 5000 characters in the
design document. -/
def LENGTH_THRESHOLD : Nat := 5000

/-- Modelled from the spec: the source states the task-list rule and the
length rule (inputs longer than 5000 characters use the heavy model) as
separate fragments without composing them; per the specification the length
rule overrides the default tier upward only, so the selected tier is heavy
when the input exceeds the threshold and the default tier of the phase
otherwise. -/
def select_tier (p : RouterPhase) (contentLength : Nat) : ModelTier :=
  if contentLength > LENGTH_THRESHOLD then ModelTier.heavy else defaultTier p

/-- C6. The Model Router selects the tier as a function of phase, with plan
and search routing to the light tier and critique and synthesize routing to
the heavy tier by default; an input exceeding 5000 characters overrides the
selection upward to heavy; and no input length ever overrides a heavy
selection downward: whenever the selection is light, the default of the phase
was light and the input was within the threshold. -/
theorem claim6_router_overrides_upward_only (p : RouterPhase) (n : Nat) :
    (defaultTier RouterPhase.plan = ModelTier.light ∧
     defaultTier RouterPhase.search = ModelTier.light ∧
     defaultTier RouterPhase.critique = ModelTier.heavy ∧
     defaultTier RouterPhase.synthesize = ModelTier.heavy) ∧
    (n > LENGTH_THRESHOLD → select_tier p n = ModelTier.heavy) ∧
    (defaultTier p = ModelTier.heavy → select_tier p n = ModelTier.heavy) ∧
    (select_tier p n = ModelTier.light →
      defaultTier p = ModelTier.light ∧ n ≤ LENGTH_THRESHOLD) := by
  refine ⟨by decide, ?_, ?_, ?_⟩
  · intro h
    simp [select_tier, h]
  · intro h
    simp [select_tier, h]
  · intro h
    by_cases hn : n > LENGTH_THRESHOLD
    · simp [select_tier, hn] at h
    · constructor
      · simpa [select_tier, hn] using h
      · omega

/-- Witness for claim C6 at a concrete phase and input length: a plan input of
5001 characters routes to the heavy tier. -/
theorem claim6_witness :
    select_tier RouterPhase.plan 5001 = ModelTier.heavy :=
  (claim6_router_overrides_upward_only RouterPhase.plan 5001).2.1 (by decide)

/-- Outcome of one BaseCrawler._request_with_retry call from the crawler
design document: a 200 response returns the payload; an HTTP status other
than 200 and 403 raises an uncaught CrawlerException that propagates; three
rate-limited attempts exhaust the retry budget and the call falls through the
loop and returns nothing. -/
inductive RequestOutcome
  | success
  | crawlerError (status : Nat)
  | exhausted
deriving DecidableEq, Repr

/-- Trace of one _request_with_retry call: the outcome, the number of request
attempts actually made, and the backoff sleeps, in seconds, performed after
rate-limited attempts. -/
structure RetryTrace where
  outcome : RequestOutcome
  attempts : Nat
  sleeps : List Nat
deriving DecidableEq, Repr

/-- The retry loop body of BaseCrawler._request_with_retry from the crawler
design document: for attempt in range of the retry budget, issue the request;
a 200 response succeeds; a 403 response raises RateLimitedException, which is
caught, sleeps two to the power of the attempt index, and continues; any other
status raises CrawlerException, which is not caught and propagates. The
statuses argument gives the HTTP status observed on each attempt index. -/
def requestLoop (statuses : Nat → Nat) : Nat → Nat → List Nat → RetryTrace
  | _, 0, sleeps => { outcome := RequestOutcome.exhausted, attempts := 0, sleeps := sleeps }
  | attempt, r + 1, sleeps =>
    let s := statuses attempt
    if s = 200 then
      { outcome := RequestOutcome.success, attempts := 1, sleeps := sleeps }
    else if s = 403 then
      let t := requestLoop statuses (attempt + 1) r (sleeps ++ [2 ^ attempt])
      { t with attempts := t.attempts + 1 }
    else
      { outcome := RequestOutcome.crawlerError s, attempts := 1, sleeps := sleeps }

/-- The default retry budget of _request_with_retry, three attempts, matching
the retry table of the crawler design document for RateLimitedException. -/
def max_retries : Nat := 3

/-- BaseCrawler._request_with_retry with the default budget of three
attempts. -/
def request_with_retry (statuses : Nat → Nat) : RetryTrace :=
  requestLoop statuses 0 max_retries []

/-- The Recovery Policy verdicts of the specification. -/
inductive RecoveryVerdict
  | retry_same
  | retry_with_substitution
  | abort
deriving DecidableEq, Repr

/-- Modelled from the spec: the Recovery Policy verdict for a rate-limited
failure as a function of the number of attempts already made is not
implemented under src, only the crawler retry loop is; per the specification,
rate-limited failures are retried with exponential backoff up to a cap of
three attempts, and the policy returns abort once the cap is reached. -/
def rateLimitedVerdict (attempts : Nat) : RecoveryVerdict :=
  if attempts < max_retries then RecoveryVerdict.retry_same else RecoveryVerdict.abort

/-- Modelled from the spec: the transition applied when the Recovery Policy
returns abort is not implemented under src; per the specification an abort
drives the task into the failed phase, records the classified error kind, and
preserves all Thought Steps emitted before the failure (partial progress is
never discarded). -/
def applyAbort (st : AgentState) (kind : ErrorType) : AgentState × ErrorType :=
  ({ st with current_phase := AgentPhase.failed }, kind)

lemma requestLoop_attempts_le (statuses : Nat → Nat) :
    ∀ (r attempt : Nat) (sleeps : List Nat),
      (requestLoop statuses attempt r sleeps).attempts ≤ r := by
  intro r
  induction r with
  | zero => intro attempt sleeps; simp [requestLoop]
  | succ n ih =>
    intro attempt sleeps
    simp only [requestLoop]
    split
    · exact Nat.succ_le_succ (Nat.zero_le n)
    · split
      · exact Nat.succ_le_succ (ih _ _)
      · exact Nat.succ_le_succ (Nat.zero_le n)

/-- C4. A tool call classified as rate-limited is retried with exponential
backoff and capped at three attempts: for every sequence of responses the
request loop makes at most three attempts, and when the first three responses
are all rate-limited the loop makes exactly three attempts sleeping one, two
and four seconds before giving up; the policy verdict at three attempts is
abort, and the abort transition moves the task to the failed phase with the
rate-limited error kind while every Thought Step emitted before the failure
remains in the record. -/
theorem claim4_rate_limited_abort_after_three :
    (∀ statuses : Nat → Nat, (request_with_retry statuses).attempts ≤ max_retries) ∧
    (∀ statuses : Nat → Nat, statuses 0 = 403 → statuses 1 = 403 → statuses 2 = 403 →
      request_with_retry statuses =
        { outcome := RequestOutcome.exhausted, attempts := 3, sleeps := [1, 2, 4] }) ∧
    rateLimitedVerdict 3 = RecoveryVerdict.abort ∧
    (∀ st : AgentState,
      (applyAbort st ErrorType.API_RATE_LIMIT).1.current_phase = AgentPhase.failed ∧
      (applyAbort st ErrorType.API_RATE_LIMIT).2 = ErrorType.API_RATE_LIMIT ∧
      (applyAbort st ErrorType.API_RATE_LIMIT).1.thought_chain = st.thought_chain) := by
  refine ⟨?_, ?_, by decide, ?_⟩
  · intro statuses
    exact requestLoop_attempts_le statuses max_retries 0 []
  · intro statuses h0 h1 h2
    simp [request_with_retry, max_retries, requestLoop, h0, h1, h2]
  · intro st
    exact ⟨rfl, rfl, rfl⟩

/-- Witness for claim C4 at a concrete response sequence: every attempt is
answered with status 403, so the loop makes three attempts with backoff
sleeps of one, two and four seconds and then gives up, and the task record is
driven to failed with its thought chain intact. -/
theorem claim4_witness :
    request_with_retry (fun _ => 403) =
      { outcome := RequestOutcome.exhausted, attempts := 3, sleeps := [1, 2, 4] } ∧
    (applyAbort (AgentOrchestrator.initState "Monitor X" 10)
        ErrorType.API_RATE_LIMIT).1.current_phase = AgentPhase.failed :=
  ⟨claim4_rate_limited_abort_after_three.2.1 (fun _ => 403) rfl rfl rfl,
   (claim4_rate_limited_abort_after_three.2.2.2
      (AgentOrchestrator.initState "Monitor X" 10)).1⟩

/-- The planner failure of the error taxonomy. -/
inductive PlanError
  | PlanningError
deriving DecidableEq, Repr

/-- Modelled from the spec: the Planner implementation is not under src; the
design document in src/insightsentinel/App.tsx only declares it in the
STEP 1 PLANNER box, whose output contract is a TaskPlan with 3-5 sub-tasks.
Per the specification, plan decomposes the command into the ordered sub-task
list produced by the model, emits one planning Thought Step, and fails with
PlanningError exactly when the model returns zero sub-tasks. The result pairs
the returned decomposition with the number of planning Thought Steps
emitted. -/
def plan_command (modelSubtasks : List String) : Except PlanError (List String × Nat) :=
  if modelSubtasks.isEmpty then Except.error PlanError.PlanningError
  else Except.ok (modelSubtasks, 1)

/-- The planner output range documented in the source: the STEP 1 PLANNER box
of the design document in src/insightsentinel/App.tsx states an output of a
TaskPlan with 3-5 sub-tasks. -/
def planRangeSource (n : Nat) : Prop := 3 ≤ n ∧ n ≤ 5

/-- The planner output range as the claim words it, 2-5 sub-tasks, stated for
comparison against the range documented in the source. -/
def planRangeClaimed (n : Nat) : Prop := 2 ≤ n ∧ n ≤ 5

/-- Modelled from the spec: PlanningError is fatal and drives the task to
failed without retry, so its recovery verdict is abort. -/
def planVerdict : PlanError → RecoveryVerdict
  | PlanError.PlanningError => RecoveryVerdict.abort

/-- Counterexample to claim C8: a decomposition of exactly two sub-tasks lies
inside the 2-5 range the claim states but outside the 3-5 output range the
source documents for the planner, so the claim as stated does not match the
planner contract of the repository. -/
theorem claim8_counterexample : planRangeClaimed 2 ∧ ¬ planRangeSource 2 := by
  constructor
  · exact ⟨le_refl 2, by omega⟩
  · intro h
    exact absurd h.1 (by omega)

/-- C8 as amended: plan returns the ordered decomposition produced by the
model, in the documented range of 3-5 sub-tasks, and emits exactly one
planning Thought Step; it fails with PlanningError if and only if the model
returns zero sub-tasks, and PlanningError is fatal, with an abort verdict and
no retry. -/
theorem claim8_plan_contract (modelSubtasks : List String) :
    (plan_command modelSubtasks = Except.error PlanError.PlanningError ↔
      modelSubtasks = []) ∧
    (modelSubtasks ≠ [] → plan_command modelSubtasks = Except.ok (modelSubtasks, 1)) ∧
    (planRangeSource modelSubtasks.length →
      plan_command modelSubtasks = Except.ok (modelSubtasks, 1)) ∧
    planVerdict PlanError.PlanningError = RecoveryVerdict.abort := by
  refine ⟨?_, ?_, ?_, rfl⟩
  · constructor
    · intro h
      by_cases he : modelSubtasks = []
      · exact he
      · simp [plan_command, he] at h
    · intro h
      simp [plan_command, h]
  · intro h
    simp [plan_command, h]
  · intro h
    have hne : modelSubtasks ≠ [] := by
      intro he
      rw [he] at h
      exact absurd h.1 (by simp)
    simp [plan_command, hne]

/-- Witness for the amended claim C8 at a concrete model output of three
sub-tasks: the planner returns them in order with one planning Thought
Step. -/
theorem claim8_witness :
    plan_command ["search zhihu", "search wechat", "summarize"] =
      Except.ok (["search zhihu", "search wechat", "summarize"], 1) :=
  (claim8_plan_contract ["search zhihu", "search wechat", "summarize"]).2.2.1
    (by constructor <;> simp)

/-- One parsed SSE data payload as seen by executeWithStream in
src/insightsentinel/services/agentService.ts: the fields the dispatcher
inspects, each optional because the JSON payloads of the different event
kinds carry different fields. -/
structure SSEData where
  step_id : Option String
  task_id : Option String
  status : Option String
  total_tokens : Option Nat
  intelligence_count : Option Nat
  error : Option String
deriving DecidableEq, Repr

/-- JavaScript truthiness of an optional string field: present and
non-empty. -/
def truthy : Option String → Bool
  | none => false
  | some s => !s.isEmpty

/-- The callback invocation the dispatcher performs for one payload. -/
inductive CallbackInvocation
  | onThought (step_id : String)
  | onComplete (task_id : String) (total_tokens : Nat)
  | onError (message : String)
  | noCallback
deriving DecidableEq, Repr

/-- The event dispatch of AgentService.executeWithStream from
src/insightsentinel/services/agentService.ts: a payload with a truthy step_id
invokes onThought; otherwise a payload with a truthy task_id whose status
field equals the string completed invokes onComplete with the task id and the
total_tokens field defaulted to zero; otherwise a payload with a truthy error
field invokes onError; otherwise no callback runs. -/
def dispatchSSEData (d : SSEData) : CallbackInvocation :=
  if truthy d.step_id then
    CallbackInvocation.onThought (d.step_id.getD "")
  else if truthy d.task_id && d.status == some "completed" then
    CallbackInvocation.onComplete (d.task_id.getD "") (d.total_tokens.getD 0)
  else if truthy d.error then
    CallbackInvocation.onError (d.error.getD "")
  else
    CallbackInvocation.noCallback

/-- The terminal complete event documented for POST /api/v1/agent/execute in
the backend API design document: task id, intelligence count and total
tokens, with no status field and no step_id. -/
def documentedCompleteEvent : SSEData :=
  { step_id := none
    task_id := some "task_001"
    status := none
    total_tokens := some 2500
    intelligence_count := some 15
    error := none }

/-- C2, evaluated at the failing input. The complete event documented by the
backend API design carries task id, item count and total tokens but no status
field, so the dispatcher of executeWithStream invokes no callback at all for
it; onComplete would fire only if the payload additionally carried a status
field equal to completed. A documented thought payload does invoke onThought,
and a payload with an error field does invoke onError, so the divergence is
confined to the terminal complete event. -/
theorem claim2_complete_event_drops_callback :
    dispatchSSEData documentedCompleteEvent = CallbackInvocation.noCallback ∧
    dispatchSSEData { documentedCompleteEvent with status := some "completed" } =
      CallbackInvocation.onComplete "task_001" 2500 ∧
    dispatchSSEData
      { step_id := some "task_001_step_1", task_id := none, status := none,
        total_tokens := none, intelligence_count := none, error := none } =
      CallbackInvocation.onThought "task_001_step_1" ∧
    dispatchSSEData
      { step_id := none, task_id := some "task_001", status := none,
        total_tokens := none, intelligence_count := none,
        error := some "rate-limited" } =
      CallbackInvocation.onError "rate-limited" := by
  refine ⟨rfl, rfl, rfl, rfl⟩

/-- One abort-controller identity in the AgentService model: controllers are
numbered in creation order. The service state holds the number of controllers
created so far, the currently stored controller if any, and the identities of
every controller that has been aborted. -/
structure ServiceState where
  nextId : Nat
  current : Option Nat
  aborted : List Nat
deriving DecidableEq, Repr

/-- AgentService.abort from src/insightsentinel/services/agentService.ts: if
an abort controller is stored, abort it and clear the stored reference;
otherwise do nothing. -/
def ServiceState.abortOp (s : ServiceState) : ServiceState :=
  match s.current with
  | some c => { s with aborted := c :: s.aborted, current := none }
  | none => s

/-- The opening of AgentService.executeWithStream from
src/insightsentinel/services/agentService.ts: cancel any existing request by
calling abort, then store a fresh abort controller for the new request. -/
def ServiceState.startStream (s : ServiceState) : ServiceState :=
  let s1 := s.abortOp
  { s1 with current := some s1.nextId, nextId := s1.nextId + 1 }

/-- The externally invokable operations on the service that touch the abort
controller. -/
inductive ServiceOp
  | start
  | abortReq
deriving DecidableEq, Repr

def applyServiceOp (s : ServiceState) : ServiceOp → ServiceState
  | ServiceOp.start => s.startStream
  | ServiceOp.abortReq => s.abortOp

/-- The service state before any request: no controller created. -/
def initServiceState : ServiceState :=
  { nextId := 0, current := none, aborted := [] }

/-- Runs a sequence of operations against the initial service state. -/
def runServiceOps (ops : List ServiceOp) : ServiceState :=
  ops.foldl applyServiceOp initServiceState

/-- The single-flight property: every controller ever created that has not
been aborted is the currently stored one, so at most one request is ever left
unaborted. -/
def OneLive (s : ServiceState) : Prop :=
  ∀ i, i < s.nextId → i ∉ s.aborted → s.current = some i

lemma abortOp_nextId (s : ServiceState) : s.abortOp.nextId = s.nextId := by
  cases hc : s.current with
  | none => rw [ServiceState.abortOp, hc]
  | some c => rw [ServiceState.abortOp, hc]

lemma abortOp_current (s : ServiceState) : s.abortOp.current = none := by
  cases hc : s.current with
  | none => rw [ServiceState.abortOp, hc]; exact hc
  | some c => rw [ServiceState.abortOp, hc]

lemma startStream_fields (s : ServiceState) :
    s.startStream.current = some s.abortOp.nextId ∧
    s.startStream.nextId = s.abortOp.nextId + 1 ∧
    s.startStream.aborted = s.abortOp.aborted :=
  ⟨rfl, rfl, rfl⟩

lemma oneLive_abortOp {s : ServiceState} (h : OneLive s) : OneLive s.abortOp := by
  intro i hi hni
  rw [abortOp_nextId] at hi
  cases hc : s.current with
  | none =>
    have heq : s.abortOp = s := by rw [ServiceState.abortOp, hc]
    rw [heq] at hni ⊢
    exact h i hi hni
  | some c =>
    rw [ServiceState.abortOp, hc] at hni
    simp only [List.mem_cons, not_or] at hni
    have hcur := h i hi hni.2
    rw [hc] at hcur
    exact absurd (Option.some_injective _ hcur).symm hni.1

lemma oneLive_startStream {s : ServiceState} (h : OneLive s) : OneLive s.startStream := by
  intro i hi hni
  have hab := oneLive_abortOp h
  rw [(startStream_fields s).2.1] at hi
  rw [(startStream_fields s).2.2] at hni
  rw [(startStream_fields s).1]
  by_cases hlt : i < s.abortOp.nextId
  · have hcur := hab i hlt hni
    rw [abortOp_current] at hcur
    exact absurd hcur (by simp)
  · have heq : i = s.abortOp.nextId := by omega
    rw [heq]

lemma oneLive_runServiceOps (ops : List ServiceOp) : OneLive (runServiceOps ops) := by
  rw [runServiceOps]
  have hinit : OneLive initServiceState := by
    intro i hi
    simp [initServiceState] at hi
  generalize initServiceState = s at hinit ⊢
  induction ops generalizing s with
  | nil => exact hinit
  | cons op rest ih =>
    rw [List.foldl_cons]
    apply ih
    cases op with
    | start => exact oneLive_startStream hinit
    | abortReq => exact oneLive_abortOp hinit

/-- C9. At most one streaming execute request is in flight per AgentService
instance: abort always clears the stored controller; starting a stream aborts
whatever controller was stored and stores a fresh one; and consequently,
after any sequence of start and abort operations, every controller ever
created that is not the currently stored one has been aborted. -/
theorem claim9_single_flight_invariant :
    (∀ s : ServiceState, s.abortOp.current = none ∨ s.abortOp = s) ∧
    (∀ s : ServiceState, s.startStream.current = some s.abortOp.nextId ∧
      (∀ c, s.current = some c → c ∈ s.startStream.aborted)) ∧
    (∀ (ops : List ServiceOp) (i : Nat),
      i < (runServiceOps ops).nextId → i ∉ (runServiceOps ops).aborted →
      (runServiceOps ops).current = some i) := by
  refine ⟨?_, ?_, fun ops => oneLive_runServiceOps ops⟩
  · intro s
    cases hc : s.current with
    | none => right; rw [ServiceState.abortOp, hc]
    | some c => left; rw [ServiceState.abortOp, hc]
  · intro s
    constructor
    · rfl
    · intro c hc
      rw [ServiceState.startStream, ServiceState.abortOp, hc]
      simp

/-- Witness for claim C9 at a concrete operation sequence: after two
consecutive stream starts, the first controller has been aborted and the only
unaborted controller is the second, currently stored one. -/
theorem claim9_witness :
    (runServiceOps [ServiceOp.start, ServiceOp.start]).current = some 1 :=
  claim9_single_flight_invariant.2.2 [ServiceOp.start, ServiceOp.start] 1
    (by decide) (by decide)

/-- HTTP response as seen by healthCheck: only the status code matters. -/
structure HttpResponse where
  status : Nat
deriving DecidableEq, Repr

/-- The ok flag of a fetch response: status in the range 200 to 299. -/
def HttpResponse.okFlag (r : HttpResponse) : Bool :=
  decide (200 ≤ r.status) && decide (r.status < 300)

/-- How a fetch of the health endpoint can fail: a network error thrown by
fetch, or the three-second AbortSignal timeout firing. -/
inductive FetchFailure
  | network
  | timedOut
deriving DecidableEq, Repr

/-- AgentService.healthCheck from
src/insightsentinel/services/agentService.ts: fetch the health endpoint under
a three-second timeout inside a try block and return the ok flag of the
response; any thrown failure, network error or timeout, is caught and yields
false. -/
def healthCheck (result : Except FetchFailure HttpResponse) : Bool :=
  match result with
  | Except.ok r => r.okFlag
  | Except.error _ => false

/-- C10. healthCheck is a total boolean function of the fetch result: it
returns true exactly when the health endpoint responded within the timeout
with an OK status in the 200 range, and false on every thrown failure,
network error or timeout, and on every non-OK status. -/
theorem claim10_healthcheck_total_boolean :
    ∀ result : Except FetchFailure HttpResponse,
      (healthCheck result = true ↔
        ∃ r : HttpResponse, result = Except.ok r ∧ 200 ≤ r.status ∧ r.status < 300) ∧
      (∀ e : FetchFailure, healthCheck (Except.error e) = false) := by
  intro result
  constructor
  · cases result with
    | error e => simp [healthCheck]
    | ok r =>
      simp [healthCheck, HttpResponse.okFlag]
  · intro e
    rfl
